import Mathlib

/-!
Shallow embedding of the df2redis verification harness
(`scripts/test_rdb_phase_sync.py` and `scripts/test_stream_replication.py`)
and proofs about its test-data generator, equivalence engine and
result aggregation.

Modelling conventions:
* Python strings become `String`; redis hashes (python dicts returned by
  `hgetall`, compared with dict equality) become `Finset (String × String)`
  (a dict with unique keys equals another dict iff their entry sets are
  equal); redis sets (python sets from `smembers`, compared with set
  equality) become `Finset String`; lists (`lrange`) stay ordered `List`s;
  sorted-set ranges (`zrange … withscores=True`) are ordered lists of
  (member, score) pairs.  Scores are IEEE doubles in the source but are
  only ever compared for equality there, so they are modelled by `Rat`,
  which is faithful for the equality-only use.
* A store is a snapshot function from key to the answers the store gives
  about that key.  The commands issued by the verification pass
  (EXISTS, TYPE, GET, HGETALL, LRANGE, SMEMBERS, ZRANGE) are read-only.
* A store-level fault (timeout, protocol error) while querying a key is
  modelled per key and side by the `err` field: `some e` means any command
  touching that key on that side raises an exception with message `e`,
  which the per-record `try/except` of `verify_test_data` catches.
-/

/-- The answers one store gives about one key: existence (`EXISTS`),
type label (`TYPE`), and the value representations fetched by the
kind-specific branches of `verify_test_data`
(src/scripts/test_rdb_phase_sync.py lines 232-298).  `err = some e`
models a store-level fault raised by any command on this key. -/
structure KeyView where
  ex : Bool
  ty : String
  strVal : Option String
  hashVal : Finset (String × String)
  listVal : List String
  setVal : Finset String
  zsetVal : List (String × Rat)
  err : Option String
deriving DecidableEq

/-- A store snapshot: what the store answers for each key. -/
abbrev Store := String → KeyView

/-- A test record as appended to `test_keys` by `write_test_data`
(src/scripts/test_rdb_phase_sync.py lines 157-222): the tuple
`(key, key_type, expected_value)`. -/
structure TestRec where
  key : String
  keyType : String
  expectedValue : Option String
deriving DecidableEq

/-- Zero-padding to width 3, as in the python format `f"key_{i:03d}"`. -/
def pad3 (i : Nat) : String :=
  if i < 10 then "00" ++ toString i
  else if i < 100 then "0" ++ toString i
  else toString i

/-- The key namespace constant `TEST_PREFIX = "rdb_phase_test:"`
(src/scripts/test_rdb_phase_sync.py line 34). -/
def testNamespace : String := "rdb_phase_test:"

/-- `TEST_KEYS_COUNT = 20` (src/scripts/test_rdb_phase_sync.py line 35). -/
def TEST_KEYS_COUNT : Nat := 20

/-- The key written for index `i`: `f"{TEST_PREFIX}key_{i:03d}"`. -/
def testKey (i : Nat) : String := testNamespace ++ "key_" ++ pad3 i

/-- The record produced for index `i` by the loop body of
`write_test_data` (src/scripts/test_rdb_phase_sync.py lines 164-208).
`ts` stands for the wall-clock value `int(time.time())` read at index
`i`.  The source computes `data_type = i % 6` and branches:
variant 0 is a plain string (with expiry), 1 a hash, 2 a list, 3 a set,
4 a zset, and variant 5 is again a string, with non-ASCII payload.
Only the string variants record an `expected_value`. -/
def genRecord (ts i : Nat) : TestRec :=
  if i % 6 = 0 then
    ⟨testKey i, "string", some ("test_value_" ++ toString i ++ "_timestamp_" ++ toString ts)⟩
  else if i % 6 = 1 then ⟨testKey i, "hash", none⟩
  else if i % 6 = 2 then ⟨testKey i, "list", none⟩
  else if i % 6 = 3 then ⟨testKey i, "set", none⟩
  else if i % 6 = 4 then ⟨testKey i, "zset", none⟩
  else ⟨testKey i, "string", some ("special_测试_" ++ toString i ++ "_🔥_" ++ toString ts)⟩

/-- One pass of the write loop of `write_test_data` over the listed
indices.  `writeOk i` tells whether the redis write for index `i`
succeeds; the first failing write raises, the `except` handler at
src/scripts/test_rdb_phase_sync.py lines 220-222 returns `(False, [])`,
discarding every record accumulated so far (no partial success). -/
def writeIndices (writeOk : Nat → Bool) (ts : Nat) : List Nat → Bool × List TestRec
  | [] => (true, [])
  | i :: rest =>
    if writeOk i then
      match writeIndices writeOk ts rest with
      | (true, recs) => (true, genRecord ts i :: recs)
      | (false, _) => (false, [])
    else (false, [])

/-- `write_test_data` (src/scripts/test_rdb_phase_sync.py lines 157-222):
iterates `i` over `range(n)`; on success returns `(True, test_keys)`,
on any single write failure returns `(False, [])`. -/
def write_test_data (writeOk : Nat → Bool) (ts n : Nat) : Bool × List TestRec :=
  writeIndices writeOk ts (List.range n)

/-- The classification a single iteration of the `verify_test_data` loop
gives to one record; each constructor corresponds to one of the loop's
`continue`/fall-through sites (src/scripts/test_rdb_phase_sync.py
lines 232-303). -/
inductive Outcome where
  | ok
  | missing
  | typeMismatch (src dst : String)
  | valueMismatch (label : String)
  | verifyError (msg : String)
deriving DecidableEq

/-- One iteration of the `verify_test_data` loop
(src/scripts/test_rdb_phase_sync.py lines 232-303) for a record with
recorded kind label `kt`, where `sv`/`tv` are the source/target answers
for the record's key.  Command order follows the source: first
`target_r.exists(key)` (missing check), then `source_r.type(key)` and
`target_r.type(key)` (type check), then the `kt`-specific value fetches.
A fault on the target surfaces at the `exists` call, a fault on the
source at the `type` call; both are caught by the per-record
`except Exception` handler (lines 300-303). -/
def verifyRecord (sv tv : KeyView) (kt : String) : Outcome :=
  match tv.err with
  | some e => .verifyError e
  | none =>
    if tv.ex = false then .missing
    else
      match sv.err with
      | some e => .verifyError e
      | none =>
        if sv.ty ≠ tv.ty then .typeMismatch sv.ty tv.ty
        else if kt = "string" then
          if sv.strVal ≠ tv.strVal then .valueMismatch "Value mismatch" else .ok
        else if kt = "hash" then
          if sv.hashVal ≠ tv.hashVal then .valueMismatch "Hash mismatch" else .ok
        else if kt = "list" then
          if sv.listVal ≠ tv.listVal then .valueMismatch "List mismatch" else .ok
        else if kt = "set" then
          if sv.setVal ≠ tv.setVal then .valueMismatch "Set mismatch" else .ok
        else if kt = "zset" then
          if sv.zsetVal ≠ tv.zsetVal then .valueMismatch "ZSet mismatch" else .ok
        else .ok

/-- The `fail_details` entry appended for a non-ok outcome, with the
exact strings of src/scripts/test_rdb_phase_sync.py lines 237, 246,
256, 265, 274, 283, 292 and 302; `none` for the success path. -/
def outcomeDetail (key : String) : Outcome → Option String
  | .ok => none
  | .missing => some (key ++ ": Missing in target")
  | .typeMismatch s d => some (key ++ ": Type mismatch (src=" ++ s ++ ", dst=" ++ d ++ ")")
  | .valueMismatch label => some (key ++ ": " ++ label)
  | .verifyError msg => some (key ++ ": Verification error - " ++ msg)

/-- `verify_test_data` (src/scripts/test_rdb_phase_sync.py
lines 224-305): folds the loop over the record list, returning
`(success_count, fail_count, fail_details)`.  The source accumulates
left to right with mutable counters; this structural recursion produces
the same counts and the same detail list in the same (injection)
order. -/
def verify_test_data (src tgt : Store) : List TestRec → Nat × Nat × List String
  | [] => (0, 0, [])
  | r :: rest =>
    let o := verifyRecord (src r.key) (tgt r.key) r.keyType
    let acc := verify_test_data src tgt rest
    match outcomeDetail r.key o with
    | none => (acc.1 + 1, acc.2.1, acc.2.2)
    | some msg => (acc.1, acc.2.1 + 1, msg :: acc.2.2)

/-- The data-loss rate the script reports
(src/scripts/test_rdb_phase_sync.py lines 376-378, 391): when
`fail_count > 0` it computes `(fail_count / len(test_keys)) * 100`;
otherwise the success branch reports the literal "0% data loss".
The float arithmetic of the source is modelled over `Rat`; at every
instance fixed by the spec the double-precision result agrees with the
rational one. -/
def data_loss_rate (failCount total : Nat) : Rat :=
  if 0 < failCount then ((failCount : Rat) / (total : Rat)) * 100 else 0

/-- How a run of `scripts/test_rdb_phase_sync.py` can end: the normal
path reaching line 404 with a final `fail_count`, a setup failure
(`load_config` / `connect_redis`, lines 82, 97, 105, 123, 126, 129),
a generation failure (line 349), `KeyboardInterrupt` (line 411) or any
other exception (line 416). -/
inductive RdbRunEnd where
  | completed (failCount : Nat)
  | setupError
  | genFailed
  | interrupted
  | unexpectedError
deriving DecidableEq

/-- The process exit status of `scripts/test_rdb_phase_sync.py` for each
way the run can end: `sys.exit(0 if fail_count == 0 else 1)` on the
normal path (line 404) and `sys.exit(1)` at every other exit site
(lines 82, 97, 105, 123, 126, 129, 349, 411, 416). -/
def rdbExitCode : RdbRunEnd → Nat
  | .completed f => if f = 0 then 0 else 1
  | .setupError => 1
  | .genFailed => 1
  | .interrupted => 1
  | .unexpectedError => 1

/-- Steps 5-9 of `main` in src/scripts/test_rdb_phase_sync.py
(lines 346-404), after configuration and connection setup: write the
test data; if that failed, exit with code 1 before any verification
(modelled by the `none` summary); otherwise verify and exit 0 exactly
when `fail_count == 0`.  Returns (exit code, optional verification
summary). -/
def mainAfterSetup (writeOk : Nat → Bool) (ts : Nat) (src tgt : Store) :
    Nat × Option (Nat × Nat × List String) :=
  let w := write_test_data writeOk ts TEST_KEYS_COUNT
  if w.1 = false then (1, none)
  else
    let v := verify_test_data src tgt w.2
    (if v.2.1 = 0 then 0 else 1, some v)

/-- A redis stream value as observed by `compare_streams`
(src/scripts/test_stream_replication.py lines 57-117): the ordered list
of entries returned by `XRANGE`, each an (id, field-map) pair.  Entry
field maps are python dicts compared with dict equality, modelled as
entry sets. -/
structure StreamVal where
  entries : List (String × Finset (String × String))
deriving DecidableEq

/-- The `length` field of `XINFO STREAM` for an existing stream. -/
def xinfoLength (s : StreamVal) : Nat := s.entries.length

/-- The `first-entry` field of `XINFO STREAM`. -/
def firstEntry (s : StreamVal) : Option (String × Finset (String × String)) :=
  s.entries.head?

/-- The `last-entry` field of `XINFO STREAM`. -/
def lastEntry (s : StreamVal) : Option (String × Finset (String × String)) :=
  s.entries.getLast?

/-- `compare_streams` (src/scripts/test_stream_replication.py
lines 57-117).  A store where the key is absent is `none`; `XINFO` on
it raises a "no such key" `ResponseError`.  Control flow of the source:

* both present: compare lengths, entry counts, the zipped (id, data)
  pairs, then first-entry and last-entry (lines 61-100);
* source absent: the first `xinfo_stream` raises, the handler re-probes
  the target (lines 102-111) and returns `False` if the target exists,
  `True` if it does not;
* source present, target absent: the second `xinfo_stream` raises the
  same "no such key" error; the handler - written for the source-absent
  case - re-probes the target, which raises again, and the inner
  `except` returns `True` (line 110-111) after printing that the stream
  is absent on both sides. -/
def compare_streams (src tgt : Option StreamVal) : Bool :=
  match src, tgt with
  | some s, some t =>
    if xinfoLength s ≠ xinfoLength t then false
    else if s.entries.length ≠ t.entries.length then false
    else if (s.entries.zip t.entries).any (fun p => !(p.1 == p.2)) then false
    else if firstEntry s ≠ firstEntry t then false
    else if lastEntry s ≠ lastEntry t then false
    else true
  | some _, none => true
  | none, some _ => false
  | none, none => true

/-- `test_trim_minid` (src/scripts/test_stream_replication.py
lines 162-183): after seeding the stream, it issues
`XTRIM key MINID 5-0`; if the source rejects the command with a
`ResponseError` (`minidSupported = false`) the handler returns `True`
without comparing anything; otherwise it compares the post-trim
source and target streams. -/
def test_trim_minid (minidSupported : Bool) (src tgt : Option StreamVal) : Bool :=
  if minidSupported then compare_streams src tgt else true

/-- `run_all_tests` summary (src/scripts/test_stream_replication.py
lines 244-255): from the list of per-test boolean results it computes
`passed = <number of True results>` and returns `passed == total`. -/
def run_all_tests (results : List Bool) : Bool :=
  results.count true == results.length

/-- How a run of `scripts/test_stream_replication.py` can end
(lines 274-284): the normal path with the boolean from
`run_all_tests`, `KeyboardInterrupt`, or any other exception. -/
inductive StreamRunEnd where
  | completed (allPassed : Bool)
  | interrupted
  | fatalError
deriving DecidableEq

/-- The process exit status of `scripts/test_stream_replication.py`
(lines 274-284): `sys.exit(0 if success else 1)`, `sys.exit(2)` on
interrupt, `sys.exit(3)` on a fatal error. -/
def streamExitCode : StreamRunEnd → Nat
  | .completed b => if b then 0 else 1
  | .interrupted => 2
  | .fatalError => 3

/-- A fully healthy key view used to build concrete store snapshots:
the key exists, reports type "string", and both sides hold the same
values. -/
def okView : KeyView :=
  { ex := true, ty := "string", strVal := some "v", hashVal := ∅,
    listVal := [], setVal := ∅, zsetVal := [], err := none }

/-- A view of a key that is absent (EXISTS answers 0, no fault). -/
def absentView : KeyView := { okView with ex := false }

/-- Source snapshot of the simulated-drop scenario: every key healthy. -/
def srcDemo : Store := fun _ => okView

/-- Target snapshot of the simulated-drop scenario: identical to the
source except that the 7th generated key (index 6, `key_006`) is
absent. -/
def tgtDemo : Store := fun k => if k = testKey 6 then absentView else okView

/-- The 20 records of a fully successful generation run (`ts = 0`). -/
def demoRecs : List TestRec := (write_test_data (fun _ => true) 0 20).2

/-- C1 counterexample: the claim asserts the generator cycles through
six kinds including Stream, so a run with N = 20 would contain at least
one Stream record.  In the code the sixth variant (index 5) is again a
string (the special-character string), and none of the 20 generated
records has kind "stream". -/
theorem C1_counterexample :
    (genRecord 0 5).keyType = "string"
    ∧ ((List.range 20).map fun i => (genRecord 0 i).keyType).contains "stream" = false := by
  decide

/-- C1 amended: the generator selects payload variant `i % 6` in cyclic
round-robin over six payload variants, but those variants realize only
the five kinds string, hash, list, set, zset - variants 0 and 5 are both
strings - so a run with N = 20 covers exactly those five kinds, in the
cycle string, hash, list, set, zset, string, and contains no Stream
record. -/
theorem C1_amended_thm :
    (∀ ts i : Nat, (genRecord ts i).keyType = (genRecord ts (i % 6)).keyType)
    ∧ ((List.range 20).map fun i => (genRecord 0 i).keyType)
        = ["string", "hash", "list", "set", "zset", "string",
           "string", "hash", "list", "set", "zset", "string",
           "string", "hash", "list", "set", "zset", "string",
           "string", "hash"] := by
  constructor
  · intro ts i
    have h : i % 6 % 6 = i % 6 := Nat.mod_mod_of_dvd i (dvd_refl 6)
    have h6 : i % 6 < 6 := Nat.mod_lt _ (by norm_num)
    simp only [genRecord, h]
    set r := i % 6 with hr
    interval_cases r <;> rfl
  · decide

/-- C2: for a record whose key answers without store faults and which is
present on the source, the equivalence engine (one iteration of the
`verify_test_data` loop) first classifies the record as Missing when the
key is absent on the target; otherwise, a mismatch of the store-reported
type labels yields TypeMismatch for every possible pair of value
representations, i.e. without any kind-specific value comparison; and
only when both checks pass does the kind-specific rule decide - for a
Hash record the outcome is ok exactly when the full field-to-value
mappings are equal (no subset suffices). -/
theorem C2_thm (sv tv : KeyView) (kt : String)
    (hse : sv.err = none) (hte : tv.err = none) (_hsx : sv.ex = true) :
    (tv.ex = false → verifyRecord sv tv kt = .missing)
    ∧ (tv.ex = true → sv.ty ≠ tv.ty →
        verifyRecord sv tv kt = .typeMismatch sv.ty tv.ty)
    ∧ (tv.ex = true → sv.ty = tv.ty → kt = "hash" →
        (verifyRecord sv tv kt = .ok ↔ sv.hashVal = tv.hashVal)) := by
  refine ⟨?_, ?_, ?_⟩
  · intro htx
    simp [verifyRecord, hte, htx]
  · intro htx hty
    simp [verifyRecord, hte, hse, htx, hty]
  · intro htx hty hkt
    subst hkt
    by_cases hv : sv.hashVal = tv.hashVal <;>
      simp [verifyRecord, hte, hse, htx, hty, hv]

/-- C2 witness: a concrete record with fault-free answers; the target
key is absent, so the engine reports Missing. -/
theorem C2_witness :
    verifyRecord okView absentView "hash" = .missing :=
  (C2_thm okView absentView "hash" rfl rfl rfl).1 rfl

/-- C3 evaluated at the failing input: `compare_streams` does yield a
Match when the stream is absent on both stores, but it also yields a
Match (True) when the stream is present on the source and absent on the
target - the target's "no such key" error is mis-attributed to the
source by the handler, which re-probes the target and concludes "absent
on both sides".  The claim (and the spec) require a Missing, non-Match
outcome there. -/
theorem C3_code_eval :
    compare_streams none none = true
    ∧ compare_streams (some ⟨[("1-0", {("field1", "value1")})]⟩) none = true := by
  decide

/-- C4: a verification pass always runs to completion and produces
exactly one outcome per record - the success and failure counts sum to
the total record count - and the failure details are exactly the detail
strings of the failing records, one per failed record, kept in
injection order with no deduplication or reordering (the detail list is
the in-order `filterMap` of the per-record outcomes). -/
theorem C4_thm (src tgt : Store) (recs : List TestRec) :
    (verify_test_data src tgt recs).1 + (verify_test_data src tgt recs).2.1 = recs.length
    ∧ (verify_test_data src tgt recs).2.2.length = (verify_test_data src tgt recs).2.1
    ∧ (verify_test_data src tgt recs).2.2
        = recs.filterMap
            (fun r => outcomeDetail r.key (verifyRecord (src r.key) (tgt r.key) r.keyType)) := by
  induction recs with
  | nil => simp [verify_test_data]
  | cons r rest ih =>
    obtain ⟨ih1, ih2, ih3⟩ := ih
    cases h : outcomeDetail r.key (verifyRecord (src r.key) (tgt r.key) r.keyType) with
    | none =>
      refine ⟨?_, ?_, ?_⟩
      · simp only [verify_test_data, h, List.length_cons]
        omega
      · simp only [verify_test_data, h]
        exact ih2
      · simp only [verify_test_data, h, List.filterMap_cons]
        exact ih3
    | some msg =>
      refine ⟨?_, ?_, ?_⟩
      · simp only [verify_test_data, h, List.length_cons]
        omega
      · simp only [verify_test_data, h, List.length_cons]
        omega
      · simp only [verify_test_data, h, List.filterMap_cons]
        rw [ih3]

/-- C5 counterexample: the claim requires distinct non-zero exit codes
for "verification failures found", "fatal setup error" and
"interrupted", but `scripts/test_rdb_phase_sync.py` exits with code 1
in all three cases. -/
theorem C5_counterexample :
    rdbExitCode (RdbRunEnd.completed 1) = rdbExitCode RdbRunEnd.interrupted
    ∧ rdbExitCode RdbRunEnd.interrupted = rdbExitCode RdbRunEnd.setupError := by
  decide

/-- C5 amended: in both scripts the process exit status is zero iff the
verdict is Pass (failure count exactly zero; for the stream script,
`run_all_tests` returns True exactly when no per-test result is False).
The stream replication script does use distinct non-zero codes
(1 = verification failures, 2 = interrupted, 3 = fatal error), but the
RDB phase script exits 1 alike for verification failures, setup errors,
generation failures, interrupts and unexpected errors. -/
theorem C5_thm :
    (∀ e, rdbExitCode e = 0 ↔ e = RdbRunEnd.completed 0)
    ∧ (∀ e, streamExitCode e = 0 ↔ e = StreamRunEnd.completed true)
    ∧ (∀ results : List Bool, run_all_tests results = true ↔ results.count false = 0)
    ∧ (streamExitCode (.completed false) = 1 ∧ streamExitCode .interrupted = 2
        ∧ streamExitCode .fatalError = 3)
    ∧ (rdbExitCode (.completed 1) = 1 ∧ rdbExitCode .setupError = 1
        ∧ rdbExitCode .genFailed = 1 ∧ rdbExitCode .interrupted = 1
        ∧ rdbExitCode .unexpectedError = 1) := by
  refine ⟨?_, ?_, ?_, by decide, by decide⟩
  · intro e
    cases e with
    | completed f =>
      by_cases hf : f = 0 <;> simp [rdbExitCode, hf]
    | setupError => simp [rdbExitCode]
    | genFailed => simp [rdbExitCode]
    | interrupted => simp [rdbExitCode]
    | unexpectedError => simp [rdbExitCode]
  · intro e
    cases e with
    | completed b => cases b <;> simp [streamExitCode]
    | interrupted => simp [streamExitCode]
    | fatalError => simp [streamExitCode]
  · intro results
    induction results with
    | nil => simp [run_all_tests]
    | cons b l ih =>
      have hc : l.count true ≤ l.length := List.count_le_length true l
      cases b <;>
        simp [run_all_tests, List.count_cons, beq_iff_eq] at ih ⊢ <;>
        omega

/-- C6: the reported loss rate equals failures divided by total (as a
percentage); with zero failures - in particular with zero records - the
reported rate is 0 and the division branch is never taken, so no
division fault can occur; an empty record list verifies to total 0,
failures 0 and verdict Pass (exit 0); and in the 20-record scenario
with exactly the 7th key missing the pass reports 19 successes, 1
Missing failure, a 5 percent loss rate and a Fail verdict (exit 1). -/
theorem C6_thm :
    (∀ f t : Nat, 0 < f → data_loss_rate f t = ((f : Rat) / (t : Rat)) * 100)
    ∧ data_loss_rate 0 0 = 0
    ∧ data_loss_rate 1 20 = 5
    ∧ (∀ src tgt : Store, verify_test_data src tgt [] = (0, 0, []))
    ∧ rdbExitCode (.completed 0) = 0
    ∧ verify_test_data srcDemo tgtDemo demoRecs
        = (19, 1, [testKey 6 ++ ": Missing in target"])
    ∧ rdbExitCode (.completed 1) = 1 := by
  refine ⟨?_, by norm_num [data_loss_rate], by norm_num [data_loss_rate],
    ?_, by decide, by decide, by decide⟩
  · intro f t hf
    simp [data_loss_rate, hf]
  · intro src tgt
    rfl

/-- C6 witness: the loss-rate formula instantiated at 1 failure out of
20 records. -/
theorem C6_witness :
    (0 : Nat) < 1 ∧ data_loss_rate 1 20 = ((1 : Rat) / (20 : Rat)) * 100 :=
  ⟨by decide, C6_thm.1 1 20 (by decide)⟩

/-- Fail-fast of the write loop: one failing write anywhere in the
index list makes the whole loop return `(False, [])`. -/
theorem writeIndices_fail (writeOk : Nat → Bool) (ts : Nat) (l : List Nat)
    (h : ∃ i ∈ l, writeOk i = false) :
    writeIndices writeOk ts l = (false, []) := by
  induction l with
  | nil => simp at h
  | cons a l ih =>
    obtain ⟨i, hi, hfalse⟩ := h
    rcases List.mem_cons.mp hi with rfl | hmem
    · simp [writeIndices, hfalse]
    · by_cases ha : writeOk a
      · have hrest := ih ⟨i, hmem, hfalse⟩
        simp [writeIndices, ha, hrest]
      · simp [writeIndices, ha]

/-- C7: if any single write of the generation run fails, the whole
generation step reports failure with an empty record list, and the
caller (`main`, steps 5-9) exits with code 1 without ever running the
verification pass (summary `none`). -/
theorem C7_thm (writeOk : Nat → Bool) (ts n : Nat) (src tgt : Store)
    (h : ∃ i, i < n ∧ writeOk i = false) :
    write_test_data writeOk ts n = (false, [])
    ∧ (n = TEST_KEYS_COUNT → mainAfterSetup writeOk ts src tgt = (1, none)) := by
  obtain ⟨i, hin, hfalse⟩ := h
  have hfail : write_test_data writeOk ts n = (false, []) :=
    writeIndices_fail writeOk ts (List.range n) ⟨i, List.mem_range.mpr hin, hfalse⟩
  refine ⟨hfail, ?_⟩
  intro hn
  subst hn
  simp [mainAfterSetup, hfail]

/-- C7 witness: the write of index 3 fails; generation reports zero
usable records and the run aborts before verification. -/
theorem C7_witness :
    write_test_data (fun i => decide (i ≠ 3)) 0 TEST_KEYS_COUNT = (false, [])
    ∧ (TEST_KEYS_COUNT = TEST_KEYS_COUNT →
        mainAfterSetup (fun i => decide (i ≠ 3)) 0 srcDemo tgtDemo = (1, none)) :=
  C7_thm (fun i => decide (i ≠ 3)) 0 TEST_KEYS_COUNT srcDemo tgtDemo
    ⟨3, by decide, by decide⟩

/-- C8: the verification pass is a function of the stores' answers
alone - two passes run against stores that give the same answer for
every key produce the same success count, the same failure count and
the same failure details.  The pass issues only read commands (EXISTS,
TYPE, GET, HGETALL, LRANGE, SMEMBERS, ZRANGE), so an unchanged pair of
stores gives the second pass the same answers as the first. -/
theorem C8_thm (src src2 tgt tgt2 : Store) (recs : List TestRec)
    (hs : ∀ k, src k = src2 k) (ht : ∀ k, tgt k = tgt2 k) :
    verify_test_data src tgt recs = verify_test_data src2 tgt2 recs := by
  induction recs with
  | nil => rfl
  | cons r rest ih =>
    simp only [verify_test_data, hs r.key, ht r.key, ih]

/-- Source snapshot written differently from `srcDemo` but giving the
same answer for every key. -/
def srcDemo2 : Store := fun k => if k = "never_written" then okView else okView

/-- Target snapshot written with the same definition as `tgtDemo`. -/
def tgtDemo2 : Store := fun k => if k = testKey 6 then absentView else okView

/-- C8 witness: the two passes over an unchanged store pair agree on
the demo scenario. -/
theorem C8_witness :
    verify_test_data srcDemo tgtDemo demoRecs
      = verify_test_data srcDemo2 tgtDemo2 demoRecs :=
  C8_thm srcDemo srcDemo2 tgtDemo tgtDemo2 demoRecs
    (fun k => by simp [srcDemo, srcDemo2])
    (fun _ => rfl)

/-- C9: for a record whose recorded kind label is none of "string",
"hash", "list", "set", "zset" (the generator never records such a
label, but e.g. "stream" would be one), the loop body's dispatch chain
has no branch, so once the key exists on the target and the two
store-reported type labels agree, the record is counted as a success -
for every possible pair of value representations, i.e. without any
value comparison at all. -/
theorem C9_thm (sv tv : KeyView) (kt : String)
    (hse : sv.err = none) (hte : tv.err = none)
    (htx : tv.ex = true) (hty : sv.ty = tv.ty)
    (hkt : kt ∉ (["string", "hash", "list", "set", "zset"] : List String)) :
    verifyRecord sv tv kt = .ok := by
  simp only [List.mem_cons, List.not_mem_nil, or_false, not_or] at hkt
  obtain ⟨h1, h2, h3, h4, h5⟩ := hkt
  simp [verifyRecord, hse, hte, htx, hty, h1, h2, h3, h4, h5]

/-- Source-side answers for a hypothetical stream-kind record. -/
def streamSrcView : KeyView :=
  { ex := true, ty := "stream", strVal := some "a", hashVal := ∅,
    listVal := ["x"], setVal := ∅, zsetVal := [], err := none }

/-- Target-side answers for the same record, with different values. -/
def streamTgtView : KeyView :=
  { ex := true, ty := "stream", strVal := some "b", hashVal := ∅,
    listVal := [], setVal := ∅, zsetVal := [], err := none }

/-- C9 witness: a "stream"-labelled record whose two sides hold
different values is still counted as a success. -/
theorem C9_witness :
    verifyRecord streamSrcView streamTgtView "stream" = .ok :=
  C9_thm streamSrcView streamTgtView "stream" rfl rfl rfl rfl (by decide)

/-- C10: when the source rejects `XTRIM ... MINID` with a protocol
error, `test_trim_minid` returns a passing result for every possible
pair of stream states - in particular also for states on which
`compare_streams` would report a mismatch - so no source/target
comparison takes place and no failure is recorded. -/
theorem C10_thm :
    (∀ src tgt : Option StreamVal, test_trim_minid false src tgt = true)
    ∧ (∃ src tgt : Option StreamVal,
        compare_streams src tgt = false ∧ test_trim_minid false src tgt = true) :=
  ⟨fun _ _ => rfl, ⟨none, some ⟨[]⟩, by decide, rfl⟩⟩
